import Mathlib

/-!
Verification of the feedback-analytics engine of this repository against its
natural-language specification.

The embedding is a shallow one:

* Python numbers (ints and floats) are modelled as `ℚ`; every division in the
  source is guarded by the source's own zero checks, which are reproduced
  literally.  `round(x, d)` is modelled by `roundTo d` (round-half-to-even,
  Python's documented rounding mode).
* Python `dict`s with string keys are modelled as association lists
  `List (String × _)`; `d.get(k)` / `k in d` become `List.lookup`, and
  `d[k] = v` becomes `dictSet` (update in place when the key exists, append
  otherwise), matching insertion-order semantics of Python 3.7+ dicts.
* Python strings are modelled as `String`, with the slicing / strip /
  startswith operations re-implemented over `String.data` (`pyStrip`,
  `pyTake`, ...), since a Python `str` is a sequence of code points.
* `json.loads` (an external library call) is an oracle parameter
  `String → Option PyVal`: `none` models `json.JSONDecodeError`, `some v`
  the parsed value.
* Code that raises is modelled in `Except`; a Python `try/except` block
  becomes a `match` on the `Except` value.
-/

namespace FeedbackAnalytics

/-! ### Python string primitives, modelled over code-point lists -/

/-- Lexicographic `≤` on code-point lists; models Python string comparison. -/
def charListLe : List Char → List Char → Bool
  | [], _ => true
  | _ :: _, [] => false
  | a :: as, b :: bs => if a < b then true else if a = b then charListLe as bs else false

/-- Python `s1 <= s2` on strings. -/
def strLe (a b : String) : Bool := charListLe a.data b.data

/-- Code-point-list prefix test (structural, kernel-reducible). -/
def charListPre : List Char → List Char → Bool
  | [], _ => true
  | _ :: _, [] => false
  | a :: as, b :: bs => a = b && charListPre as bs

/-- Whitespace for Python `str.strip()` (the characters relevant here). -/
def isPySpace (c : Char) : Bool := c == ' ' || c == '\t' || c == '\n' || c == '\r'

/-- Python `s.strip()`. -/
def pyStrip (s : String) : String :=
  String.mk (((s.data.dropWhile isPySpace).reverse.dropWhile isPySpace).reverse)

/-- Python `s.startswith(p)`. -/
def pyStartsWith (s p : String) : Bool := charListPre p.data s.data

/-- Python `s.endswith(p)`. -/
def pyEndsWith (s p : String) : Bool := charListPre p.data.reverse s.data.reverse

/-- Python `s[:n]` for `n ≥ 0`. -/
def pyTake (s : String) (n : ℕ) : String := String.mk (s.data.take n)

/-- Python `s[n:]` for `n ≥ 0`. -/
def pyDrop (s : String) (n : ℕ) : String := String.mk (s.data.drop n)

/-- Python `s[:-n]` for `n > 0`. -/
def pyDropRight (s : String) (n : ℕ) : String := String.mk (s.data.take (s.data.length - n))

/-- Python `len(s)`. -/
def pyLen (s : String) : ℕ := s.data.length

/-- Python `a + b` on strings. -/
def pyConcat (a b : String) : String := String.mk (a.data ++ b.data)

/-! ### Python numeric rounding -/

/-- Round a rational to the nearest integer, ties to even: the rounding mode
of Python's built-in `round`. -/
def pyRoundInt (x : ℚ) : ℤ :=
  if x - ⌊x⌋ < 1/2 then ⌊x⌋
  else if x - ⌊x⌋ > 1/2 then ⌊x⌋ + 1
  else if 2 ∣ ⌊x⌋ then ⌊x⌋ else ⌊x⌋ + 1

/-- Python `round(x, d)`. -/
def roundTo (d : ℕ) (x : ℚ) : ℚ := (pyRoundInt (x * 10 ^ d) : ℚ) / 10 ^ d

/-- Python `min(values)` on a nonempty list (0 on `[]`, a case never used). -/
def listMin : List ℚ → ℚ
  | [] => 0
  | h :: t => t.foldl min h

/-- Python `max(values)` on a nonempty list (0 on `[]`, a case never used). -/
def listMax : List ℚ → ℚ
  | [] => 0
  | h :: t => t.foldl max h

/-! ### Data model -/

/-- One feedback record, as stored by the feedback store.  `quantitative` is
`none` when the record has no `'quantitative'` key (the code guards every
access with `if 'quantitative' in feedback`); otherwise it is the association
list of metric-name / rating pairs.  The free-text `qualitative` answers are
not modelled: no claim below depends on their content. -/
structure FeedbackRecord where
  training_id : String
  quantitative : Option (List (String × ℚ))

/-- Python dict values, as produced by `json.loads` and by the dict literals
in the source. -/
inductive PyVal where
  | str : String → PyVal
  | num : ℚ → PyVal
  | bool : Bool → PyVal
  | list : List PyVal → PyVal
  | dict : List (String × PyVal) → PyVal
  | none : PyVal

/-- Python `d[k] = v` on a string-keyed dict: update in place when the key
exists, append at the end otherwise (Python 3.7+ insertion-order dicts). -/
def dictSet : List (String × PyVal) → String → PyVal → List (String × PyVal)
  | [], k, v => [(k, v)]
  | p :: t, k, v => if p.1 = k then (k, v) :: t else p :: dictSet t k v

/-! ### Rating Aggregator
(`analyze_comprehensive_training_feedback`, `src/openai_analysis.py` lines 363–399) -/

/-- Per-metric statistics (`quantitative_insights[metric]` in the source);
the five distribution buckets are the `excellent_5` … `poor_1` counters. -/
structure MetricStats where
  average : ℚ
  min : ℚ
  max : ℚ
  count : ℕ
  excellent_5 : ℕ
  very_good_4 : ℕ
  good_3 : ℕ
  fair_2 : ℕ
  poor_1 : ℕ

/-- Source: `quantitative_data = [f['quantitative'] for f in all_feedbacks if 'quantitative' in f]`. -/
def quantData (records : List FeedbackRecord) : List (List (String × ℚ)) :=
  records.filterMap (·.quantitative)

/-- Source: `values = [q.get(metric) for q in quantitative_data if q.get(metric) is not None]`. -/
def collectValues (metric : String) (qdata : List (List (String × ℚ))) : List ℚ :=
  qdata.filterMap (fun q => q.lookup metric)

/-- Source: the dict built for `quantitative_insights[metric]` from `values`. -/
def mkMetricStats (values : List ℚ) : MetricStats :=
  { average := roundTo 2 (values.sum / values.length)
    min := listMin values
    max := listMax values
    count := values.length
    excellent_5 := (values.filter (fun v => v = 5)).length
    very_good_4 := (values.filter (fun v => v = 4)).length
    good_3 := (values.filter (fun v => v = 3)).length
    fair_2 := (values.filter (fun v => v = 2)).length
    poor_1 := (values.filter (fun v => v = 1)).length }

/-- Source line 382: `metrics = list(quantitative_data[0].keys())` — the
metric names of the FIRST record only (empty when there is no record). -/
def firstRecordMetrics (qdata : List (List (String × ℚ))) : List String :=
  match qdata with
  | [] => []
  | q0 :: _ => q0.map Prod.fst

/-- Source lines 381–399: one stats entry per metric of the first record that
has at least one present value.  Note the source iterates only over the first
record's keys. -/
def quantitativeInsights (qdata : List (List (String × ℚ))) : List (String × MetricStats) :=
  (firstRecordMetrics qdata).filterMap (fun metric =>
    if (collectValues metric qdata).isEmpty then Option.none
    else some (metric, mkMetricStats (collectValues metric qdata)))

/-- Spec-side definition (for the refinement comparison in C3 only): the
metric names appearing in ANY record's quantitative mapping, as the claim
words it — not what the source computes. -/
def specMetricNames (records : List FeedbackRecord) : List String :=
  (quantData records).flatMap (List.map Prod.fst)

/-! ### Insight Composer deterministic fallback
(`analyze_comprehensive_training_feedback`, `src/openai_analysis.py` lines 515–625) -/

/-- Source: `poor_pct = (distribution.get('poor_1', 0) + distribution.get('fair_2', 0)) / total_responses * 100`. -/
def poorPctOf (s : MetricStats) : ℚ := ((s.poor_1 : ℚ) + (s.fair_2 : ℚ)) / (s.count : ℚ) * 100

/-- Source: `excellent_pct = distribution.get('excellent_5', 0) / total_responses * 100`. -/
def excellentPctOf (s : MetricStats) : ℚ := (s.excellent_5 : ℚ) / (s.count : ℚ) * 100

/-- Source: `variance = stats.get('max', 0) - stats.get('min', 0)` (a max−min spread). -/
def spreadOf (s : MetricStats) : ℚ := s.max - s.min

/-- The stats entries the `for stats in quantitative_insights.values()` loop
keeps: those with `total_responses > 0` (lines 538–548). -/
def ratedStats (insights : List (String × MetricStats)) : List MetricStats :=
  (insights.map Prod.snd).filter (fun s => 0 < s.count)

/-- Source lines 518–525: `overall_avg`, the mean of the (display-rounded)
per-metric averages, `0` when there are no metric stats. -/
def overallAvgFB (insights : List (String × MetricStats)) : ℚ :=
  if insights.isEmpty then 0
  else ((insights.map (fun p => p.2.average)).sum) / (insights.length : ℚ)

/-- Source line 551: `poor_percentage`, the mean over metrics of `poor_pct`
(`0` when `all_poor_pcts` stays empty). -/
def poorPercentageFB (insights : List (String × MetricStats)) : ℚ :=
  if (ratedStats insights).isEmpty then 0
  else (((ratedStats insights).map poorPctOf).sum) / ((ratedStats insights).length : ℚ)

/-- Source line 552: `excellent_percentage`, the mean over metrics of `excellent_pct`. -/
def excellentPercentageFB (insights : List (String × MetricStats)) : ℚ :=
  if (ratedStats insights).isEmpty then 0
  else (((ratedStats insights).map excellentPctOf).sum) / ((ratedStats insights).length : ℚ)

/-- Source line 553: `avg_variance`, the mean over metrics of `max - min`. -/
def avgVarianceFB (insights : List (String × MetricStats)) : ℚ :=
  if (ratedStats insights).isEmpty then 0
  else (((ratedStats insights).map spreadOf).sum) / ((ratedStats insights).length : ℚ)

/-- Source line 549: `polarization_detected = avg_variance > 3 or
(poor_percentage > 20 and excellent_percentage > 20)`, computed only when
`all_poor_pcts` is nonempty, `False` otherwise. -/
def polarizationDetectedFB (insights : List (String × MetricStats)) : Bool :=
  if (ratedStats insights).isEmpty then false
  else decide (avgVarianceFB insights > 3 ∨
    (poorPercentageFB insights > 20 ∧ excellentPercentageFB insights > 20))

/-- Source lines 551–556: the fallback `risk_level` if-chain. -/
def riskLevelFB (insights : List (String × MetricStats)) : String :=
  if poorPercentageFB insights > 40 ∨ overallAvgFB insights < 2.5 then "high"
  else if poorPercentageFB insights > 20 ∨ overallAvgFB insights < 3.5 then "medium"
  else "low"

/-- Source lines 558–566: the fallback `sentiment` if-chain. -/
def sentimentFB (insights : List (String × MetricStats)) : String :=
  if polarizationDetectedFB insights then "mixed"
  else if overallAvgFB insights < 2.5 then "negative"
  else if overallAvgFB insights < 3.5 then "neutral"
  else "positive"

/-! ### Composer control flow for the text-insight service call
(`analyze_comprehensive_training_feedback`, lines 492–625 and 608–629) -/

/-- Outcome of the `client.chat.completions.create` call: `failure` models any
raised exception (timeout, network error, `client` being `None`), `reply c`
a completed call whose message content is `c`. -/
inductive ServiceOutcome where
  | failure
  | reply (content : String)

/-- Exceptions the embedded code can raise. -/
inductive PyError where
  | unboundLocal (name : String)
  | attributeMissing (name : String)
  | zeroDivision
  | jsonDecode
  | typeMismatch
  | comprehensiveFailed

/-- Source lines 492–513: the `try` around the API call.  Returns the state of
the two locals after the `except` handler: `response_content` (`none` when the
call raised before line 504 could bind it) and the parsed `enhanced_analysis`
(`none` when any exception was caught and the handler set it to `None`). -/
def enhancedTry (outcome : ServiceOutcome) (jsonParse : String → Option PyVal) :
    Option String × Option PyVal :=
  match outcome with
  | .failure => (Option.none, Option.none)
  | .reply c =>
    let rc := pyStrip c
    match jsonParse rc with
    | Option.none => (some rc, Option.none)
    | some v => (some rc, some v)

/-- Source lines 515–625: the fallback `enhanced_analysis` dict.  Only the
computed (non-narrative) entries are modelled, in their source order; the
prose fields (`executive_summary`, `consensus_analysis`, `key_strengths`,
`critical_improvements`, the `quantitative_insights` sentence,
`polarization_solutions`, `priority_areas`, `success_indicators`) are
formatted text no claim refers to.  Building the dict evaluates
`response_content[:200]` (line 599); when the local was never bound the
construction raises `UnboundLocalError`. -/
def fallbackEnhancedDict (insights : List (String × MetricStats))
    (response_content : Option String) : Except PyError (List (String × PyVal)) :=
  match response_content with
  | Option.none => .error (.unboundLocal "response_content")
  | some rc => .ok
      [("overall_sentiment", .str (sentimentFB insights)),
       ("polarization_detected", .bool (polarizationDetectedFB insights)),
       ("recommendations", .list
          (if overallAvgFB insights < 2.5 then
            [.str "Address low-rated areas immediately", .str "Conduct follow-up sessions"]
          else
            [.str "Continue monitoring feedback trends", .str "Address any low-rated areas"])),
       ("risk_level", .str (riskLevelFB insights)),
       ("confidence", .num (7/10)),
       ("parsing_error", .bool true),
       ("raw_response", .str (if pyLen rc > 200 then pyConcat (pyTake rc 200) "..." else rc))]

/-- Python `d.get(k, default)` on a string-keyed dict. -/
def dictGetD (d : List (String × PyVal)) (k : String) (v : PyVal) : PyVal :=
  (d.lookup k).getD v

/-- Source lines 614–617: `data_summary.overall_average_rating`.  A record
whose `quantitative` dict is present but empty makes `len(q)` zero and the
division raise `ZeroDivisionError`. -/
def dataSummaryAvg (qdata : List (List (String × ℚ))) : Except PyError ℚ :=
  if qdata.isEmpty then .ok 0
  else if qdata.any (fun q => q.isEmpty) then .error .zeroDivision
  else .ok (roundTo 2
    ((qdata.map (fun q => (q.map Prod.snd).sum / (q.length : ℚ))).sum / (qdata.length : ℚ)))

/-- The fields of the returned report that the claims refer to.  The
`qualitative_analysis` entry, the echoed `all_feedbacks`, the two
`data_summary` counters and the `summary`/`suggestions` entries (prose or
echoes) are omitted. -/
structure Report where
  training_id : String
  total_participants : ℕ
  quantitative_insights : List (String × MetricStats)
  enhanced_analysis : List (String × PyVal)
  overall_average_rating : ℚ
  sentiment : PyVal
  risk_assessment : PyVal

/-- Source lines 345–625 inside the outer `try`: aggregator, service call (or
fallback), and the final report dict.  The dict literal is evaluated top to
bottom: `data_summary` (line 614) is computed before `"sentiment":
enhanced_analysis.get(...)` (line 620), which raises `AttributeError` when
`json.loads` gave a non-dict. -/
def analyzeComprehensiveBody (training_id : String) (records : List FeedbackRecord)
    (enhOutcome : ServiceOutcome) (jsonParse : String → Option PyVal) :
    Except PyError Report :=
  let qdata := quantData records
  let insights := quantitativeInsights qdata
  let (rcOpt, parsedOpt) := enhancedTry enhOutcome jsonParse
  let enhRes : Except PyError PyVal :=
    match parsedOpt with
    | some v => .ok v
    | Option.none => (fallbackEnhancedDict insights rcOpt).map PyVal.dict
  match enhRes with
  | .error e => .error e
  | .ok enhVal =>
    match dataSummaryAvg qdata with
    | .error e => .error e
    | .ok avg =>
      match enhVal with
      | .dict enh =>
        .ok { training_id := training_id
              total_participants := records.length
              quantitative_insights := insights
              enhanced_analysis := enh
              overall_average_rating := avg
              sentiment := dictGetD enh "overall_sentiment" (.str "neutral")
              risk_assessment := dictGetD enh "risk_level" (.str "medium") }
      | _ => .error (.attributeMissing "get")

/-- Source lines 345–629: `analyze_comprehensive_training_feedback` with its
outer `try/except`, whose handler re-raises every caught exception as
`Exception("Comprehensive analysis failed: ...")`. -/
def analyzeComprehensive (training_id : String) (records : List FeedbackRecord)
    (enhOutcome : ServiceOutcome) (jsonParse : String → Option PyVal) :
    Except PyError Report :=
  match analyzeComprehensiveBody training_id records enhOutcome jsonParse with
  | .ok r => .ok r
  | .error _ => .error .comprehensiveFailed

/-! ### KPI Calculator (`calculate_kpis`, `src/app.py` lines 1301–1450) -/

/-- One entry of `session_ratings`. -/
structure SessionRating where
  session_id : String
  average_rating : ℚ

/-- Ordering on `session_ratings` used by
`session_ratings.sort(key=lambda x: x['session_id'])`. -/
def sessionIdLe (a b : SessionRating) : Prop := strLe a.session_id b.session_id = true

instance : DecidableRel sessionIdLe := fun a b => by unfold sessionIdLe; infer_instance

/-- Source lines 1305–1310: grouping `feedbacks` into the insertion-ordered
dict `sessions` keyed by `training_id`. -/
def insertGroup (acc : List (String × List FeedbackRecord)) (f : FeedbackRecord) :
    List (String × List FeedbackRecord) :=
  if (acc.lookup f.training_id).isSome
  then acc.map (fun p => if p.1 = f.training_id then (p.1, p.2 ++ [f]) else p)
  else acc ++ [(f.training_id, [f])]

/-- Source lines 1305–1310: `sessions`, as an insertion-ordered association list. -/
def groupByTrainingId (fs : List FeedbackRecord) : List (String × List FeedbackRecord) :=
  fs.foldl insertGroup []

/-- Source lines 1315–1320: the loop accumulating `session_avg` (a running sum
of every quantitative value of the session) and `count`; collecting the values
into one flat list gives the same sum and the same count. -/
def sessionQuantValues (group : List FeedbackRecord) : List ℚ :=
  (group.filterMap (·.quantitative)).flatMap (List.map Prod.snd)

/-- Source lines 1313–1325: `session_ratings` before sorting — one entry per
session with `count > 0`, whose `average_rating` is `session_avg / count`. -/
def sessionRatingsUnsorted (fs : List FeedbackRecord) : List SessionRating :=
  (groupByTrainingId fs).filterMap (fun p =>
    if (sessionQuantValues p.2).length = 0 then Option.none
    else some ⟨p.1, (sessionQuantValues p.2).sum / ((sessionQuantValues p.2).length : ℚ)⟩)

/-- Source line 1328: `session_ratings.sort(key=lambda x: x['session_id'])` —
a stable ascending sort by the session-id string; `List.insertionSort` is such
a sort. -/
def sessionRatings (fs : List FeedbackRecord) : List SessionRating :=
  List.insertionSort sessionIdLe (sessionRatingsUnsorted fs)

/-- Source lines 1358–1361: `all_ratings`, the flat list of every individual
quantitative value across all feedback records. -/
def allRatingsOf (feedbacks : List FeedbackRecord) : List ℚ :=
  (quantData feedbacks).flatMap (List.map Prod.snd)

/-- The KPI dict returned by `calculate_kpis` (lines 1416–1441). -/
structure KPISet where
  avg_rating_last_3_sessions : ℚ
  consistency_score : ℚ
  improvement_trend : String
  satisfaction_rate : ℚ
  overall_avg_rating : ℚ
  best_session_rating : ℚ
  worst_session_rating : ℚ
  rating_improvement_rate : ℚ
  excellence_rate : ℚ
  poor_rating_rate : ℚ
  target_achievement_rate : ℚ
  monthly_growth_rate : ℚ
  avg_participants_per_session : ℚ
  performance_stability : ℚ

/-- Source lines 1301–1441: `calculate_kpis(feedbacks, avg_ratings, overall_avg)`.
The `avg_ratings` argument is never used in the body and is not a parameter
here; `overall_avg` is the trainer-level overall average its caller computes
(see `overallAvgOf`). -/
def calculateKpis (feedbacks : List FeedbackRecord) (overall_avg : ℚ) : KPISet :=
  let session_ratings := sessionRatings feedbacks
  let n := session_ratings.length
  let last_3_sessions := if n ≥ 3 then session_ratings.drop (n - 3) else session_ratings
  let avg_last_3 : ℚ :=
    if last_3_sessions.isEmpty then 0
    else ((last_3_sessions.map (·.average_rating)).sum) / (last_3_sessions.length : ℚ)
  let consistency_score : ℚ :=
    if n > 1 then
      let ratings := session_ratings.map (·.average_rating)
      let variance := ((ratings.map (fun r => (r - overall_avg) ^ 2)).sum) / (ratings.length : ℚ)
      max 0 (100 - variance * 20)
    else 100
  let trend : String :=
    if n ≥ 5 then
      let recent_5 := session_ratings.drop (n - 5)
      let first_half := (((recent_5.take 2).map (·.average_rating)).sum) / 2
      let second_half := (((recent_5.drop 3).map (·.average_rating)).sum) / 2
      let improvement := second_half - first_half
      if improvement > 0.2 then "↗️ Improving"
      else if improvement < -0.2 then "↘️ Declining"
      else "➡️ Stable"
    else "📊 Insufficient Data"
  let all_ratings := allRatingsOf feedbacks
  let satisfaction_rate : ℚ :=
    if all_ratings.isEmpty then 0
    else ((all_ratings.filter (fun r => r ≥ 4)).length : ℚ) / (all_ratings.length : ℚ) * 100
  let overall_avg_rating : ℚ :=
    if all_ratings.isEmpty then 0 else all_ratings.sum / (all_ratings.length : ℚ)
  let best_session_rating : ℚ :=
    if session_ratings.isEmpty then 0 else listMax (session_ratings.map (·.average_rating))
  let worst_session_rating : ℚ :=
    if session_ratings.isEmpty then 0 else listMin (session_ratings.map (·.average_rating))
  let excellence_rate : ℚ :=
    if all_ratings.isEmpty then 0
    else ((all_ratings.filter (fun r => r ≥ 4.5)).length : ℚ) / (all_ratings.length : ℚ) * 100
  let poor_rate : ℚ :=
    if all_ratings.isEmpty then 0
    else ((all_ratings.filter (fun r => r < 3)).length : ℚ) / (all_ratings.length : ℚ) * 100
  let target_achievement_rate : ℚ :=
    if session_ratings.isEmpty then 0
    else ((session_ratings.filter (fun s => s.average_rating ≥ 4)).length : ℚ) / (n : ℚ) * 100
  let improvement_rate : ℚ :=
    if n ≥ 5 then
      let recent_5 := session_ratings.drop (n - 5)
      let first_half_avg := (((recent_5.take 2).map (·.average_rating)).sum) / 2
      let second_half_avg := (((recent_5.drop 3).map (·.average_rating)).sum) / 2
      if first_half_avg > 0 then (second_half_avg - first_half_avg) / first_half_avg * 100 else 0
    else 0
  let stability_rate : ℚ :=
    if n > 1 then
      let ratings := session_ratings.map (·.average_rating)
      let mean_rating := ratings.sum / (ratings.length : ℚ)
      ((ratings.filter (fun r => |r - mean_rating| ≤ 0.5)).length : ℚ) / (ratings.length : ℚ) * 100
    else 100
  let avg_participants_per_session : ℚ :=
    if session_ratings.isEmpty then 0 else (feedbacks.length : ℚ) / (n : ℚ)
  let monthly_growth : ℚ :=
    if n ≥ 2 then
      let first_half := session_ratings.take (n / 2)
      let second_half := session_ratings.drop (n / 2)
      let first_avg := ((first_half.map (·.average_rating)).sum) / (first_half.length : ℚ)
      let second_avg := ((second_half.map (·.average_rating)).sum) / (second_half.length : ℚ)
      if first_avg > 0 then (second_avg - first_avg) / first_avg * 100 else 0
    else 0
  { avg_rating_last_3_sessions := roundTo 2 avg_last_3
    consistency_score := roundTo 1 consistency_score
    improvement_trend := trend
    satisfaction_rate := roundTo 1 satisfaction_rate
    overall_avg_rating := roundTo 2 overall_avg_rating
    best_session_rating := roundTo 2 best_session_rating
    worst_session_rating := roundTo 2 worst_session_rating
    rating_improvement_rate := roundTo 1 improvement_rate
    excellence_rate := roundTo 1 excellence_rate
    poor_rating_rate := roundTo 1 poor_rate
    target_achievement_rate := roundTo 1 target_achievement_rate
    monthly_growth_rate := roundTo 1 monthly_growth
    avg_participants_per_session := roundTo 1 avg_participants_per_session
    performance_stability := roundTo 1 stability_rate }

/-- Caller of `calculate_kpis` (`analyze_trainer_performance_data`,
`src/app.py` lines 1213–1229): per-metric rating lists in insertion order. -/
def addRating (acc : List (String × List ℚ)) (kv : String × ℚ) : List (String × List ℚ) :=
  if (acc.lookup kv.1).isSome
  then acc.map (fun p => if p.1 = kv.1 then (p.1, p.2 ++ [kv.2]) else p)
  else acc ++ [(kv.1, [kv.2])]

/-- Source lines 1213–1221: the `all_ratings` dict of
`analyze_trainer_performance_data` (metric → list of its ratings). -/
def allRatingsByMetric (feedbacks : List FeedbackRecord) : List (String × List ℚ) :=
  ((quantData feedbacks).flatMap id).foldl addRating []

/-- Source lines 1223–1229: `avg_ratings` then `overall_avg`, the value the
caller passes to `calculate_kpis` as its `overall_avg` argument. -/
def overallAvgOf (feedbacks : List FeedbackRecord) : ℚ :=
  let avg_ratings := (allRatingsByMetric feedbacks).map
    (fun p => if p.2.isEmpty then 0 else p.2.sum / (p.2.length : ℚ))
  if avg_ratings.isEmpty then 0 else avg_ratings.sum / (avg_ratings.length : ℚ)

/-! ### Polarization Detector, per-record contradiction signal -/

/-- Result of the per-record contradiction Polarization Detector (spec §4.2). -/
structure PolarizationResult where
  score : ℚ
  level : String
  contradictory_count : ℕ
  total_count : ℕ
  analysis : String

/-- Modelled from the spec: the per-record contradiction signal of the
Polarization Detector (spec §4.2, `score = contradictory_records /
total_records * 100`, level thresholds 75/50, zero-record edge case) has no
implementation under `src/` — only the quantitative variance signal does.
The per-record contradiction predicate (related metric pairs, within-record
spread, sentiment-keyword lexicon) is the `isContradictory` parameter. -/
def detectPolarization (isContradictory : FeedbackRecord → Bool)
    (records : List FeedbackRecord) : PolarizationResult :=
  if records.length = 0 then
    { score := 0, level := "low", contradictory_count := 0, total_count := 0,
      analysis := "No feedback data available for polarization analysis" }
  else
    { score := ((records.filter isContradictory).length : ℚ) / (records.length : ℚ) * 100
      level :=
        if ((records.filter isContradictory).length : ℚ) / (records.length : ℚ) * 100 ≥ 75
        then "high"
        else if ((records.filter isContradictory).length : ℚ) / (records.length : ℚ) * 100 ≥ 50
        then "medium" else "low"
      contradictory_count := (records.filter isContradictory).length
      total_count := records.length
      analysis := "Feedback set analysed for per-record contradictions" }

/-! ### Text-insight response parsing
(`_parse_openai_response` / `_create_fallback_analysis`,
`src/openai_analysis.py` lines 158–226) -/

/-- Source line 183: `required_fields`. -/
def requiredFields : List String :=
  ["summary", "sentiment", "suggestions", "keywords", "strengths", "concerns"]

/-- Source line 194: the four fields coerced to lists. -/
def arrayFields : List String := ["suggestions", "keywords", "strengths", "concerns"]

/-- Source line 186: `[] if field in [...] else ""`. -/
def defaultFor (f : String) : PyVal := if f ∈ arrayFields then .list [] else .str ""

/-- Source lines 184–186: default one missing required field. -/
def ensureField (d : List (String × PyVal)) (f : String) : List (String × PyVal) :=
  if (d.lookup f).isSome then d else dictSet d f (defaultFor f)

/-- Source lines 183–186: the `for field in required_fields` loop. -/
def ensureRequiredFields (d : List (String × PyVal)) : List (String × PyVal) :=
  requiredFields.foldl ensureField d

/-- Source lines 189–191: `analysis['sentiment'] in valid_sentiments`
(Python `==` of a dict value against the three strings). -/
def isValidSentiment : PyVal → Bool
  | .str s => s == "positive" || s == "neutral" || s == "negative"
  | _ => false

/-- Source lines 189–191: reset an invalid sentiment to `'neutral'`. -/
def fixSentiment (d : List (String × PyVal)) : List (String × PyVal) :=
  if isValidSentiment (dictGetD d "sentiment" .none) then d
  else dictSet d "sentiment" (.str "neutral")

/-- Source lines 194–196: coerce one non-list array field to `[]`. -/
def fixArrayField (d : List (String × PyVal)) (f : String) : List (String × PyVal) :=
  match d.lookup f with
  | some (.list _) => d
  | _ => dictSet d f (.list [])

/-- Source lines 194–196: the `for field in [...]` coercion loop. -/
def fixArrayFields (d : List (String × PyVal)) : List (String × PyVal) :=
  arrayFields.foldl fixArrayField d

/-- Source lines 183–198: the validation applied to a successfully parsed
JSON object. -/
def validateAnalysis (d : List (String × PyVal)) : List (String × PyVal) :=
  fixArrayFields (fixSentiment (ensureRequiredFields d))

/-- Source lines 207–226: `_create_fallback_analysis`. -/
def createFallbackAnalysis (response_content : String) : List (String × PyVal) :=
  [("summary", .str "Analysis completed but response parsing failed. Raw response available for manual review."),
   ("sentiment", .str "neutral"),
   ("suggestions", .list []),
   ("keywords", .list []),
   ("strengths", .list []),
   ("concerns", .list []),
   ("raw_response", .str (if pyLen response_content > 500
      then pyConcat (pyTake response_content 500) "..." else response_content)),
   ("parsing_error", .bool true)]

/-- Source lines 172–176: strip the optional markdown fences. -/
def stripMarkdown (rc : String) : String :=
  let rc := if pyStartsWith rc "```json" then pyDrop rc 7 else rc
  if pyEndsWith rc "```" then pyDropRight rc 3 else rc

/-- Source lines 177–198 inside the `try`: `json.loads` then the field
validation.  `jsonDecode` models `json.JSONDecodeError`; `typeMismatch`
models the `TypeError` the validation loop raises when `json.loads` returned
a non-dict value (caught by the generic `except Exception`). -/
def parseTryBody (jsonParse : String → Option PyVal) (rc : String) :
    Except PyError (List (String × PyVal)) :=
  match jsonParse rc with
  | Option.none => .error .jsonDecode
  | some (.dict entries) => .ok (validateAnalysis entries)
  | some _ => .error .typeMismatch

/-- Source lines 158–205: `_parse_openai_response` — strip, parse, validate,
with both `except` clauses returning `_create_fallback_analysis` on the
(stripped) content.  Total: the embedding of "never raises". -/
def parseOpenaiResponse (jsonParse : String → Option PyVal)
    (response_content : String) : List (String × PyVal) :=
  match parseTryBody jsonParse (stripMarkdown (pyStrip response_content)) with
  | .ok a => a
  | .error _ => createFallbackAnalysis (stripMarkdown (pyStrip response_content))

/-! ### Concrete example inputs used by the witnesses and counterexamples -/

/-- One record with a single rated metric. -/
def exRecordsC1 : List FeedbackRecord := [⟨"T1", some [("content_quality", 4)]⟩]

/-- One session ("S1") with the ten individual ratings
`[5,5,5,5,1,1,1,2,2,2]` of the spec's KPI scenario. -/
def exRecordsC2 : List FeedbackRecord :=
  [⟨"S1", some [("overall", 5)]⟩, ⟨"S1", some [("overall", 5)]⟩,
   ⟨"S1", some [("overall", 5)]⟩, ⟨"S1", some [("overall", 5)]⟩,
   ⟨"S1", some [("overall", 1)]⟩, ⟨"S1", some [("overall", 1)]⟩,
   ⟨"S1", some [("overall", 1)]⟩, ⟨"S1", some [("overall", 2)]⟩,
   ⟨"S1", some [("overall", 2)]⟩, ⟨"S1", some [("overall", 2)]⟩]

/-- Two records of one session: metric "a" carries the out-of-range value 0,
metric "b" appears only in the second record. -/
def exRecordsC3 : List FeedbackRecord :=
  [⟨"T", some [("a", 0)]⟩, ⟨"T", some [("b", 3)]⟩]

/-- Two sessions, submitted out of lexicographic order. -/
def exRecordsC5 : List FeedbackRecord :=
  [⟨"b", some [("m", 4)]⟩, ⟨"a", some [("m", 2)]⟩]

/-- Five sessions whose averages are all 3. -/
def exRecordsC8 : List FeedbackRecord :=
  [⟨"a", some [("m", 3)]⟩, ⟨"b", some [("m", 3)]⟩, ⟨"c", some [("m", 3)]⟩,
   ⟨"d", some [("m", 3)]⟩, ⟨"e", some [("m", 3)]⟩]

/-- A single session. -/
def exRecordsC9 : List FeedbackRecord := [⟨"s", some [("m", 4)]⟩]

/-! ### Helper lemmas: the lexicographic string order -/

theorem charListLe_cons_iff {a b : Char} {as bs : List Char} :
    charListLe (a :: as) (b :: bs) = true ↔
      a < b ∨ (a = b ∧ charListLe as bs = true) := by
  by_cases h1 : a < b
  · simp [charListLe, h1]
  · by_cases h2 : a = b
    · simp [charListLe, h1, h2]
    · simp [charListLe, h1, h2]

theorem charListLe_total : ∀ a b : List Char,
    charListLe a b = true ∨ charListLe b a = true
  | [], _ => Or.inl rfl
  | _ :: _, [] => Or.inr rfl
  | a :: as, b :: bs => by
    rcases lt_trichotomy a b with h | h | h
    · exact Or.inl (charListLe_cons_iff.mpr (Or.inl h))
    · rcases charListLe_total as bs with ih | ih
      · exact Or.inl (charListLe_cons_iff.mpr (Or.inr ⟨h, ih⟩))
      · exact Or.inr (charListLe_cons_iff.mpr (Or.inr ⟨h.symm, ih⟩))
    · exact Or.inr (charListLe_cons_iff.mpr (Or.inl h))

theorem charListLe_trans : ∀ a b c : List Char,
    charListLe a b = true → charListLe b c = true → charListLe a c = true
  | [], _, _ => by intro _ _; rfl
  | _ :: _, [], _ => by intro h; exact absurd h (by simp [charListLe])
  | _ :: _, _ :: _, [] => by intro _ h; exact absurd h (by simp [charListLe])
  | a :: as, b :: bs, c :: cs => by
    intro hab hbc
    rcases charListLe_cons_iff.mp hab with h₁ | ⟨h₁, h₁'⟩ <;>
      rcases charListLe_cons_iff.mp hbc with h₂ | ⟨h₂, h₂'⟩
    · exact charListLe_cons_iff.mpr (Or.inl (h₁.trans h₂))
    · exact charListLe_cons_iff.mpr (Or.inl (h₂ ▸ h₁))
    · exact charListLe_cons_iff.mpr (Or.inl (h₁ ▸ h₂))
    · exact charListLe_cons_iff.mpr (Or.inr ⟨h₁.trans h₂, charListLe_trans as bs cs h₁' h₂'⟩)

/-! ### Helper lemmas: dict update -/

theorem lookup_cons {β : Type} {k : String} {p : String × β} {t : List (String × β)} :
    List.lookup k (p :: t) = if k = p.1 then some p.2 else List.lookup k t := by
  rcases p with ⟨a, b⟩
  by_cases h : k = a
  · simp [List.lookup, h]
  · have hb : (k == a) = false := beq_eq_false_iff_ne.mpr h
    simp [List.lookup, hb, h]

theorem lookup_nil {β : Type} {k : String} :
    List.lookup k ([] : List (String × β)) = Option.none := rfl

theorem lookup_dictSet_self : ∀ (d : List (String × PyVal)) (k : String) (v : PyVal),
    (dictSet d k v).lookup k = some v
  | [], k, v => by simp [dictSet, lookup_cons]
  | p :: t, k, v => by
    by_cases hk : p.1 = k
    · simp [dictSet, hk, lookup_cons]
    · simp only [dictSet, hk, if_false]
      rw [lookup_cons, if_neg (Ne.symm hk)]
      exact lookup_dictSet_self t k v

theorem lookup_dictSet_ne : ∀ (d : List (String × PyVal)) (k k' : String) (v : PyVal),
    k' ≠ k → (dictSet d k v).lookup k' = d.lookup k'
  | [], k, k', v, h => by
    have hb : (k' == k) = false := beq_eq_false_iff_ne.mpr h
    simp [dictSet, List.lookup, hb]
  | p :: t, k, k', v, h => by
    by_cases hk : p.1 = k
    · simp only [dictSet, hk, if_true]
      rw [lookup_cons, lookup_cons, if_neg (by simpa using h), if_neg (hk ▸ h)]
    · simp only [dictSet, hk, if_false]
      rw [lookup_cons, lookup_cons]
      rcases eq_or_ne k' p.1 with he | he
      · simp [he]
      · rw [if_neg he, if_neg he]
        exact lookup_dictSet_ne t k k' v h

/-! ### Helper lemmas: the response-validation pipeline -/

theorem lookup_ensureField_isSome (d : List (String × PyVal)) (f : String) :
    ((ensureField d f).lookup f).isSome := by
  unfold ensureField
  split
  · assumption
  · simp [lookup_dictSet_self]

theorem ensureField_preserves (d : List (String × PyVal)) (f g : String)
    (h : (d.lookup g).isSome) : ((ensureField d f).lookup g).isSome := by
  unfold ensureField
  split
  · exact h
  · rcases eq_or_ne g f with rfl | hne
    · simp [lookup_dictSet_self]
    · rw [lookup_dictSet_ne _ _ _ _ hne]; exact h

theorem foldl_ensureField_preserves (fs : List String) (d : List (String × PyVal))
    (g : String) (h : (d.lookup g).isSome) :
    ((fs.foldl ensureField d).lookup g).isSome := by
  induction fs generalizing d with
  | nil => exact h
  | cons f t ih => exact ih _ (ensureField_preserves d f g h)

theorem foldl_ensureField_mem (fs : List String) (d : List (String × PyVal))
    (f : String) (hf : f ∈ fs) : ((fs.foldl ensureField d).lookup f).isSome := by
  induction fs generalizing d with
  | nil => cases hf
  | cons a t ih =>
    rcases List.mem_cons.mp hf with rfl | hmem
    · exact foldl_ensureField_preserves t _ f (lookup_ensureField_isSome d f)
    · exact ih _ hmem

theorem fixSentiment_spec (d : List (String × PyVal)) :
    ∃ s, (fixSentiment d).lookup "sentiment" = some (.str s) ∧
      (s = "positive" ∨ s = "neutral" ∨ s = "negative") := by
  unfold fixSentiment
  split
  · rename_i hval
    unfold dictGetD at hval
    cases hv : d.lookup "sentiment" with
    | none => rw [hv] at hval; simp [isValidSentiment] at hval
    | some v =>
      rw [hv] at hval
      simp only [Option.getD_some] at hval
      cases v with
      | str s =>
        refine ⟨s, rfl, ?_⟩
        simpa [isValidSentiment, or_assoc] using hval
      | num q => simp [isValidSentiment] at hval
      | bool b => simp [isValidSentiment] at hval
      | list l => simp [isValidSentiment] at hval
      | dict e => simp [isValidSentiment] at hval
      | none => simp [isValidSentiment] at hval
  · exact ⟨"neutral", lookup_dictSet_self d "sentiment" (.str "neutral"), Or.inr (Or.inl rfl)⟩

theorem fixSentiment_preserves (d : List (String × PyVal)) (g : String)
    (h : (d.lookup g).isSome) : ((fixSentiment d).lookup g).isSome := by
  unfold fixSentiment
  split
  · exact h
  · rcases eq_or_ne g "sentiment" with rfl | hne
    · simp [lookup_dictSet_self]
    · rw [lookup_dictSet_ne _ _ _ _ hne]; exact h

theorem fixArrayField_isSome_preserves (d : List (String × PyVal)) (f g : String)
    (h : (d.lookup g).isSome) : ((fixArrayField d f).lookup g).isSome := by
  unfold fixArrayField
  split
  · exact h
  · rcases eq_or_ne g f with rfl | hne
    · simp [lookup_dictSet_self]
    · rw [lookup_dictSet_ne _ _ _ _ hne]; exact h

theorem fixArrayField_self (d : List (String × PyVal)) (f : String) :
    ∃ l, (fixArrayField d f).lookup f = some (.list l) := by
  unfold fixArrayField
  split
  · rename_i l heq; exact ⟨l, heq⟩
  · exact ⟨[], lookup_dictSet_self d f (.list [])⟩

theorem fixArrayField_list_preserves (d : List (String × PyVal)) (f g : String)
    (h : ∃ l, d.lookup g = some (.list l)) :
    ∃ l, (fixArrayField d f).lookup g = some (.list l) := by
  unfold fixArrayField
  split
  · exact h
  · rcases eq_or_ne g f with rfl | hne
    · exact ⟨[], lookup_dictSet_self d g (.list [])⟩
    · rw [lookup_dictSet_ne _ _ _ _ hne]; exact h

theorem fixArrayField_lookup_ne (d : List (String × PyVal)) (f g : String)
    (hne : g ≠ f) : (fixArrayField d f).lookup g = d.lookup g := by
  unfold fixArrayField
  split
  · rfl
  · exact lookup_dictSet_ne _ _ _ _ hne

theorem foldl_fixArrayField_lookup_notmem (fs : List String) (d : List (String × PyVal))
    (g : String) (hg : ∀ f ∈ fs, g ≠ f) :
    ((fs.foldl fixArrayField d).lookup g) = d.lookup g := by
  induction fs generalizing d with
  | nil => rfl
  | cons a t ih =>
    rw [List.foldl_cons, ih _ (fun f hf => hg f (List.mem_cons_of_mem a hf)),
      fixArrayField_lookup_ne d a g (hg a (List.mem_cons_self a t))]

theorem foldl_fixArrayField_isSome (fs : List String) (d : List (String × PyVal))
    (g : String) (h : (d.lookup g).isSome) :
    ((fs.foldl fixArrayField d).lookup g).isSome := by
  induction fs generalizing d with
  | nil => exact h
  | cons a t ih => exact ih _ (fixArrayField_isSome_preserves d a g h)

theorem foldl_fixArrayField_list_preserves (fs : List String) (d : List (String × PyVal))
    (g : String) (h : ∃ l, d.lookup g = some (.list l)) :
    ∃ l, ((fs.foldl fixArrayField d).lookup g) = some (.list l) := by
  induction fs generalizing d with
  | nil => exact h
  | cons a t ih => exact ih _ (fixArrayField_list_preserves d a g h)

theorem foldl_fixArrayField_list_mem (fs : List String) (d : List (String × PyVal))
    (f : String) (hf : f ∈ fs) :
    ∃ l, ((fs.foldl fixArrayField d).lookup f) = some (.list l) := by
  induction fs generalizing d with
  | nil => cases hf
  | cons a t ih =>
    rcases List.mem_cons.mp hf with rfl | hmem
    · exact foldl_fixArrayField_list_preserves t _ f (fixArrayField_self d f)
    · exact ih _ hmem

theorem validateAnalysis_spec (d : List (String × PyVal)) :
    (∀ f ∈ requiredFields, ((validateAnalysis d).lookup f).isSome) ∧
    (∃ s, (validateAnalysis d).lookup "sentiment" = some (.str s) ∧
      (s = "positive" ∨ s = "neutral" ∨ s = "negative")) ∧
    (∀ f ∈ arrayFields, ∃ l, (validateAnalysis d).lookup f = some (.list l)) := by
  unfold validateAnalysis fixArrayFields
  refine ⟨?_, ?_, ?_⟩
  · intro f hf
    exact foldl_fixArrayField_isSome _ _ f
      (fixSentiment_preserves _ f (foldl_ensureField_mem _ d f hf))
  · obtain ⟨s, hs, hval⟩ := fixSentiment_spec (ensureRequiredFields d)
    refine ⟨s, ?_, hval⟩
    rw [foldl_fixArrayField_lookup_notmem _ _ _ (by decide)]
    exact hs
  · intro f hf
    exact foldl_fixArrayField_list_mem _ _ f hf

theorem createFallback_props (rc : String) :
    (∀ f ∈ requiredFields, ((createFallbackAnalysis rc).lookup f).isSome) ∧
    ((createFallbackAnalysis rc).lookup "sentiment" = some (.str "neutral")) ∧
    (∀ f ∈ arrayFields, ∃ l, (createFallbackAnalysis rc).lookup f = some (.list l)) ∧
    ((createFallbackAnalysis rc).lookup "parsing_error" = some (.bool true)) := by
  refine ⟨?_, ?_, ?_, ?_⟩ <;>
    simp [createFallbackAnalysis, requiredFields, arrayFields, lookup_cons]

/-! ### Helper lemmas: rounding -/

theorem pyRoundInt_nonneg {x : ℚ} (h : 0 ≤ x) : 0 ≤ pyRoundInt x := by
  have hf : (0 : ℤ) ≤ ⌊x⌋ := Int.floor_nonneg.mpr h
  unfold pyRoundInt
  split
  · exact hf
  · split
    · omega
    · split
      · exact hf
      · omega

theorem pyRoundInt_le_ceil (x : ℚ) : pyRoundInt x ≤ ⌈x⌉ := by
  have hfc : ⌊x⌋ ≤ ⌈x⌉ := Int.floor_le_ceil x
  have hlt : ∀ h : (⌊x⌋ : ℚ) < x, ⌊x⌋ + 1 ≤ ⌈x⌉ := fun h => Int.lt_ceil.mpr h
  unfold pyRoundInt
  split
  · exact hfc
  · rename_i h1
    push_neg at h1
    split
    · rename_i h2
      have : (⌊x⌋ : ℚ) < x := by linarith [lt_of_lt_of_le (by norm_num : (0:ℚ) < 1/2) h1]
      exact hlt this
    · split
      · exact hfc
      · rename_i h2 _
        push_neg at h2
        have h12 : x - ⌊x⌋ = 1/2 := le_antisymm h2 h1
        have : (⌊x⌋ : ℚ) < x := by linarith
        exact hlt this

theorem pyRoundInt_intCast (n : ℤ) : pyRoundInt (n : ℚ) = n := by
  unfold pyRoundInt
  rw [Int.floor_intCast]
  norm_num

theorem roundTo_eq_self {d : ℕ} {x : ℚ} (n : ℤ) (h : x * 10 ^ d = (n : ℚ)) :
    roundTo d x = x := by
  unfold roundTo
  rw [h, pyRoundInt_intCast, ← h]
  field_simp

theorem roundTo1_bounds {x : ℚ} (h0 : 0 ≤ x) (h1 : x ≤ 100) :
    0 ≤ roundTo 1 x ∧ roundTo 1 x ≤ 100 := by
  have hlo : 0 ≤ pyRoundInt (x * 10 ^ 1) := pyRoundInt_nonneg (by positivity)
  have hhi : pyRoundInt (x * 10 ^ 1) ≤ 1000 := by
    calc pyRoundInt (x * 10 ^ 1) ≤ ⌈x * 10 ^ 1⌉ := pyRoundInt_le_ceil _
    _ ≤ 1000 := Int.ceil_le.mpr (by norm_num; linarith)
  constructor
  · unfold roundTo
    positivity
  · unfold roundTo
    rw [div_le_iff₀ (by norm_num)]
    norm_num
    exact_mod_cast hhi

/-! ### Claim theorems -/

/-- C10: for every input string, `_parse_openai_response` returns a mapping
containing all six required keys, whose sentiment is one of
positive/neutral/negative and whose four array fields are lists; when the
(stripped) input does not parse as a JSON object it returns the deterministic
fallback mapping with `parsing_error: true` and neutral sentiment.  The
function is modelled as a total Lean function: both `except` clauses of the
source return the fallback, so no exception escapes. -/
theorem C10_parse_response_invariants (jsonParse : String → Option PyVal) (input : String) :
    (∀ f ∈ requiredFields, ((parseOpenaiResponse jsonParse input).lookup f).isSome) ∧
    (∃ s, (parseOpenaiResponse jsonParse input).lookup "sentiment" = some (.str s) ∧
      (s = "positive" ∨ s = "neutral" ∨ s = "negative")) ∧
    (∀ f ∈ arrayFields, ∃ l, (parseOpenaiResponse jsonParse input).lookup f = some (.list l)) ∧
    ((∀ e, jsonParse (stripMarkdown (pyStrip input)) ≠ some (.dict e)) →
      parseOpenaiResponse jsonParse input =
        createFallbackAnalysis (stripMarkdown (pyStrip input)) ∧
      (parseOpenaiResponse jsonParse input).lookup "parsing_error" = some (.bool true) ∧
      (parseOpenaiResponse jsonParse input).lookup "sentiment" = some (.str "neutral")) := by
  unfold parseOpenaiResponse parseTryBody
  cases hp : jsonParse (stripMarkdown (pyStrip input)) with
  | none =>
    obtain ⟨h1, h2, h3, h4⟩ := createFallback_props (stripMarkdown (pyStrip input))
    exact ⟨h1, ⟨"neutral", h2, Or.inr (Or.inl rfl)⟩, h3, fun _ => ⟨rfl, h4, h2⟩⟩
  | some v =>
    cases v with
    | dict e =>
      obtain ⟨h1, h2, h3⟩ := validateAnalysis_spec e
      exact ⟨h1, h2, h3, fun hne => absurd rfl (hne e)⟩
    | str s =>
      obtain ⟨h1, h2, h3, h4⟩ := createFallback_props (stripMarkdown (pyStrip input))
      exact ⟨h1, ⟨"neutral", h2, Or.inr (Or.inl rfl)⟩, h3, fun _ => ⟨rfl, h4, h2⟩⟩
    | num q =>
      obtain ⟨h1, h2, h3, h4⟩ := createFallback_props (stripMarkdown (pyStrip input))
      exact ⟨h1, ⟨"neutral", h2, Or.inr (Or.inl rfl)⟩, h3, fun _ => ⟨rfl, h4, h2⟩⟩
    | bool b =>
      obtain ⟨h1, h2, h3, h4⟩ := createFallback_props (stripMarkdown (pyStrip input))
      exact ⟨h1, ⟨"neutral", h2, Or.inr (Or.inl rfl)⟩, h3, fun _ => ⟨rfl, h4, h2⟩⟩
    | list l =>
      obtain ⟨h1, h2, h3, h4⟩ := createFallback_props (stripMarkdown (pyStrip input))
      exact ⟨h1, ⟨"neutral", h2, Or.inr (Or.inl rfl)⟩, h3, fun _ => ⟨rfl, h4, h2⟩⟩
    | none =>
      obtain ⟨h1, h2, h3, h4⟩ := createFallback_props (stripMarkdown (pyStrip input))
      exact ⟨h1, ⟨"neutral", h2, Or.inr (Or.inl rfl)⟩, h3, fun _ => ⟨rfl, h4, h2⟩⟩

/-- Witness for C10: on a parse failure (`json.loads` raising), a concrete
input yields the fallback mapping with `parsing_error: true` and neutral
sentiment. -/
theorem C10_parse_response_invariants_witness :
    parseOpenaiResponse (fun _ => Option.none) "not json" =
      createFallbackAnalysis (stripMarkdown (pyStrip "not json")) ∧
    (parseOpenaiResponse (fun _ => Option.none) "not json").lookup "parsing_error" =
      some (.bool true) ∧
    (parseOpenaiResponse (fun _ => Option.none) "not json").lookup "sentiment" =
      some (.str "neutral") :=
  (C10_parse_response_invariants (fun _ => Option.none) "not json").2.2.2
    (fun e h => by simp at h)

theorem polarizationLevel_iff (s : ℚ) :
    ((if s ≥ 75 then "high" else if s ≥ 50 then "medium" else "low") = ("high" : String) ↔
      75 ≤ s) ∧
    ((if s ≥ 75 then "high" else if s ≥ 50 then "medium" else "low") = ("medium" : String) ↔
      50 ≤ s ∧ s < 75) ∧
    ((if s ≥ 75 then "high" else if s ≥ 50 then "medium" else "low") = ("low" : String) ↔
      s < 50) := by
  have hhm : ("high" : String) ≠ "medium" := by decide
  have hhl : ("high" : String) ≠ "low" := by decide
  have hmh : ("medium" : String) ≠ "high" := by decide
  have hml : ("medium" : String) ≠ "low" := by decide
  have hlh : ("low" : String) ≠ "high" := by decide
  have hlm : ("low" : String) ≠ "medium" := by decide
  by_cases h75 : s ≥ 75
  · rw [if_pos h75]
    exact ⟨iff_of_true rfl h75,
      iff_of_false hhm (fun h => absurd h75 (not_le.mpr h.2)),
      iff_of_false hhl (fun h => absurd h75 (not_le.mpr (by linarith)))⟩
  · by_cases h50 : s ≥ 50
    · rw [if_neg h75, if_pos h50]
      exact ⟨iff_of_false hmh (fun h => absurd h h75),
        iff_of_true rfl ⟨h50, not_le.mp h75⟩,
        iff_of_false hml (fun h => absurd h (not_lt.mpr h50))⟩
    · rw [if_neg h75, if_neg h50]
      exact ⟨iff_of_false hlh (fun h => absurd h h75),
        iff_of_false hlm (fun h => absurd h.1 h50),
        iff_of_true rfl (not_le.mp h50)⟩

/-- C4: the per-record contradiction Polarization Detector (spec-modelled —
see `detectPolarization`): its score is `contradictory / total * 100`, its
level is `high` iff score ≥ 75, `medium` iff 50 ≤ score < 75, `low` iff
score < 50, and with zero records it returns score 0, level `low` and the
no-data analysis string, with no division performed. -/
theorem C4_polarization_score_level (pred : FeedbackRecord → Bool)
    (records : List FeedbackRecord) :
    (0 < records.length →
      (detectPolarization pred records).score =
        ((records.filter pred).length : ℚ) / (records.length : ℚ) * 100 ∧
      (detectPolarization pred records).contradictory_count = (records.filter pred).length ∧
      (detectPolarization pred records).total_count = records.length ∧
      ((detectPolarization pred records).level = "high" ↔
        75 ≤ (detectPolarization pred records).score) ∧
      ((detectPolarization pred records).level = "medium" ↔
        50 ≤ (detectPolarization pred records).score ∧
          (detectPolarization pred records).score < 75) ∧
      ((detectPolarization pred records).level = "low" ↔
        (detectPolarization pred records).score < 50)) ∧
    (records.length = 0 →
      (detectPolarization pred records).score = 0 ∧
      (detectPolarization pred records).level = "low" ∧
      (detectPolarization pred records).analysis =
        "No feedback data available for polarization analysis") := by
  constructor
  · intro hpos
    have hne : ¬records.length = 0 := Nat.pos_iff_ne_zero.mp hpos
    unfold detectPolarization
    rw [if_neg hne]
    exact ⟨rfl, rfl, rfl, (polarizationLevel_iff _).1, (polarizationLevel_iff _).2.1,
      (polarizationLevel_iff _).2.2⟩
  · intro hzero
    unfold detectPolarization
    rw [if_pos hzero]
    exact ⟨rfl, rfl, rfl⟩

/-- Witness for C4: the zero-record edge case at a concrete input. -/
theorem C4_polarization_score_level_witness :
    (detectPolarization (fun _ => true) []).score = 0 ∧
    (detectPolarization (fun _ => true) []).level = "low" ∧
    (detectPolarization (fun _ => true) []).analysis =
      "No feedback data available for polarization analysis" :=
  (C4_polarization_score_level (fun _ => true) []).2 rfl

/-- C6: the deterministic fallback's risk level is `high` iff the overall
average is < 2.5 or the poor percentage is > 40, `medium` iff neither holds
but the overall average is < 3.5 or the poor percentage is > 20, `low`
otherwise; its sentiment is `mixed` iff polarization is flagged, and
otherwise `negative`/`neutral`/`positive` by the 2.5 / 3.5 thresholds on the
overall average. -/
theorem C6_fallback_risk_and_sentiment (insights : List (String × MetricStats)) :
    (riskLevelFB insights = "high" ↔
      overallAvgFB insights < 2.5 ∨ poorPercentageFB insights > 40) ∧
    (riskLevelFB insights = "medium" ↔
      ¬(overallAvgFB insights < 2.5 ∨ poorPercentageFB insights > 40) ∧
        (overallAvgFB insights < 3.5 ∨ poorPercentageFB insights > 20)) ∧
    (riskLevelFB insights = "low" ↔
      ¬(overallAvgFB insights < 2.5 ∨ poorPercentageFB insights > 40) ∧
      ¬(overallAvgFB insights < 3.5 ∨ poorPercentageFB insights > 20)) ∧
    (sentimentFB insights = "mixed" ↔ polarizationDetectedFB insights = true) ∧
    (polarizationDetectedFB insights = false →
      (sentimentFB insights = "negative" ↔ overallAvgFB insights < 2.5) ∧
      (sentimentFB insights = "neutral" ↔
        ¬(overallAvgFB insights < 2.5) ∧ overallAvgFB insights < 3.5) ∧
      (sentimentFB insights = "positive" ↔ ¬(overallAvgFB insights < 3.5))) := by
  have hhm : ("high" : String) ≠ "medium" := by decide
  have hhl : ("high" : String) ≠ "low" := by decide
  have hmh : ("medium" : String) ≠ "high" := by decide
  have hml : ("medium" : String) ≠ "low" := by decide
  have hlh : ("low" : String) ≠ "high" := by decide
  have hlm : ("low" : String) ≠ "medium" := by decide
  refine ⟨?_, ?_, ?_, ?_, ?_⟩
  · unfold riskLevelFB
    by_cases h1 : poorPercentageFB insights > 40 ∨ overallAvgFB insights < 2.5
    · rw [if_pos h1]
      exact iff_of_true rfl (or_comm.mp h1)
    · rw [if_neg h1]
      by_cases h2 : poorPercentageFB insights > 20 ∨ overallAvgFB insights < 3.5
      · rw [if_pos h2]
        exact iff_of_false hmh (fun h => h1 (or_comm.mp h))
      · rw [if_neg h2]
        exact iff_of_false hlh (fun h => h1 (or_comm.mp h))
  · unfold riskLevelFB
    by_cases h1 : poorPercentageFB insights > 40 ∨ overallAvgFB insights < 2.5
    · rw [if_pos h1]
      exact iff_of_false hhm (fun h => h.1 (or_comm.mp h1))
    · rw [if_neg h1]
      by_cases h2 : poorPercentageFB insights > 20 ∨ overallAvgFB insights < 3.5
      · rw [if_pos h2]
        exact iff_of_true rfl ⟨fun h => h1 (or_comm.mp h), or_comm.mp h2⟩
      · rw [if_neg h2]
        exact iff_of_false hlm (fun h => h2 (or_comm.mp h.2))
  · unfold riskLevelFB
    by_cases h1 : poorPercentageFB insights > 40 ∨ overallAvgFB insights < 2.5
    · rw [if_pos h1]
      exact iff_of_false hhl (fun h => h.1 (or_comm.mp h1))
    · rw [if_neg h1]
      by_cases h2 : poorPercentageFB insights > 20 ∨ overallAvgFB insights < 3.5
      · rw [if_pos h2]
        exact iff_of_false hml (fun h => h.2 (or_comm.mp h2))
      · rw [if_neg h2]
        exact iff_of_true rfl ⟨fun h => h1 (or_comm.mp h), fun h => h2 (or_comm.mp h)⟩
  · unfold sentimentFB
    cases hp : polarizationDetectedFB insights with
    | true =>
      rw [if_pos rfl]
      exact iff_of_true rfl rfl
    | false =>
      rw [if_neg (by simp)]
      have hxm : ∀ x : String, x = "negative" ∨ x = "neutral" ∨ x = "positive" →
          x ≠ "mixed" := by
        rintro x (rfl | rfl | rfl) <;> decide
      by_cases h1 : overallAvgFB insights < 2.5
      · rw [if_pos h1]
        exact iff_of_false (hxm _ (Or.inl rfl)) (by simp)
      · rw [if_neg h1]
        by_cases h2 : overallAvgFB insights < 3.5
        · rw [if_pos h2]
          exact iff_of_false (hxm _ (Or.inr (Or.inl rfl))) (by simp)
        · rw [if_neg h2]
          exact iff_of_false (hxm _ (Or.inr (Or.inr rfl))) (by simp)
  · intro hp
    unfold sentimentFB
    rw [hp, if_neg (by simp)]
    have hnn : ("negative" : String) ≠ "neutral" := by decide
    have hnp : ("negative" : String) ≠ "positive" := by decide
    have hun : ("neutral" : String) ≠ "negative" := by decide
    have hup : ("neutral" : String) ≠ "positive" := by decide
    have hpn : ("positive" : String) ≠ "negative" := by decide
    have hpu : ("positive" : String) ≠ "neutral" := by decide
    by_cases h1 : overallAvgFB insights < 2.5
    · rw [if_pos h1]
      exact ⟨iff_of_true rfl h1, iff_of_false hnn (fun h => h.1 h1),
        iff_of_false hnp (fun h => h (by linarith))⟩
    · rw [if_neg h1]
      by_cases h2 : overallAvgFB insights < 3.5
      · rw [if_pos h2]
        exact ⟨iff_of_false hun h1, iff_of_true rfl ⟨h1, h2⟩,
          iff_of_false hup (fun h => h h2)⟩
      · rw [if_neg h2]
        exact ⟨iff_of_false hpn (fun h => h2 (by linarith)),
          iff_of_false hpu (fun h => h2 h.2), iff_of_true rfl h2⟩

/-- Witness for C6: the implication branch at a concrete stats set (the empty
one, whose polarization flag is `false`). -/
theorem C6_fallback_risk_and_sentiment_witness :
    (sentimentFB [] = "negative" ↔ overallAvgFB [] < 2.5) ∧
    (sentimentFB [] = "neutral" ↔ ¬(overallAvgFB [] < 2.5) ∧ overallAvgFB [] < 3.5) ∧
    (sentimentFB [] = "positive" ↔ ¬(overallAvgFB [] < 3.5)) :=
  (C6_fallback_risk_and_sentiment []).2.2.2.2 rfl

theorem quantitativeInsights_count_pos (qdata : List (List (String × ℚ))) :
    ∀ p ∈ quantitativeInsights qdata, 0 < p.2.count := by
  unfold quantitativeInsights
  intro p hp
  rw [List.mem_filterMap] at hp
  obtain ⟨m, _, hf⟩ := hp
  by_cases he : (collectValues m qdata).isEmpty
  · rw [if_pos he] at hf; cases hf
  · rw [if_neg he] at hf
    cases hf
    have : collectValues m qdata ≠ [] := by
      simpa [List.isEmpty_iff] using he
    simpa [mkMetricStats, List.length_pos] using this

theorem ratedStats_of_insights (qdata : List (List (String × ℚ))) :
    ratedStats (quantitativeInsights qdata) = (quantitativeInsights qdata).map Prod.snd := by
  unfold ratedStats
  apply List.filter_eq_self.mpr
  intro s hs
  rw [List.mem_map] at hs
  obtain ⟨p, hp, rfl⟩ := hs
  simpa using quantitativeInsights_count_pos qdata p hp

/-- C7: with at least one rated metric, the fallback quantitative variance
signal flags polarization exactly when the mean per-metric max−min spread
exceeds 3, or the mean per-metric poor percentage
(`(count at 1 + count at 2)/count*100`) exceeds 20 while the mean per-metric
excellent percentage (`count at 5 / count * 100`) exceeds 20. -/
theorem C7_quant_variance_signal (records : List FeedbackRecord)
    (h : quantitativeInsights (quantData records) ≠ []) :
    polarizationDetectedFB (quantitativeInsights (quantData records)) = true ↔
      ((((quantitativeInsights (quantData records)).map Prod.snd).map spreadOf).sum /
          (((quantitativeInsights (quantData records)).map Prod.snd).length : ℚ) > 3 ∨
       ((((quantitativeInsights (quantData records)).map Prod.snd).map poorPctOf).sum /
          (((quantitativeInsights (quantData records)).map Prod.snd).length : ℚ) > 20 ∧
        (((quantitativeInsights (quantData records)).map Prod.snd).map excellentPctOf).sum /
          (((quantitativeInsights (quantData records)).map Prod.snd).length : ℚ) > 20)) := by
  have hre := ratedStats_of_insights (quantData records)
  have hne : ¬(ratedStats (quantitativeInsights (quantData records))).isEmpty := by
    rw [hre]
    simpa [List.isEmpty_iff] using h
  unfold polarizationDetectedFB avgVarianceFB poorPercentageFB excellentPercentageFB
  rw [if_neg hne, if_neg hne, if_neg hne, if_neg hne, hre, decide_eq_true_eq]

/-- Witness for C7: a concrete single-record set with one rated metric; its
single value 5 makes the spread 0 and the excellent percentage 100, so the
signal reduces to the poor-percentage conjunct, which fails — no polarization. -/
theorem C7_quant_variance_signal_witness :
    polarizationDetectedFB (quantitativeInsights (quantData [⟨"T1", some [("m", 5)]⟩])) = true ↔
      ((((quantitativeInsights (quantData [⟨"T1", some [("m", 5)]⟩])).map Prod.snd).map spreadOf).sum /
          (((quantitativeInsights (quantData [⟨"T1", some [("m", 5)]⟩])).map Prod.snd).length : ℚ) > 3 ∨
       ((((quantitativeInsights (quantData [⟨"T1", some [("m", 5)]⟩])).map Prod.snd).map poorPctOf).sum /
          (((quantitativeInsights (quantData [⟨"T1", some [("m", 5)]⟩])).map Prod.snd).length : ℚ) > 20 ∧
        (((quantitativeInsights (quantData [⟨"T1", some [("m", 5)]⟩])).map Prod.snd).map excellentPctOf).sum /
          (((quantitativeInsights (quantData [⟨"T1", some [("m", 5)]⟩])).map Prod.snd).length : ℚ) > 20)) :=
  C7_quant_variance_signal [⟨"T1", some [("m", 5)]⟩]
    (by simp [quantitativeInsights, quantData, collectValues, List.lookup, firstRecordMetrics])

/-- C1 (code bug): when the text-insight service call itself raises (timeout,
network error, client unavailable), `analyze_comprehensive_training_feedback`
does NOT return a fallback report: building the fallback dict evaluates the
local `response_content` (line 599), which was never bound because the call
raised before line 504; the resulting `UnboundLocalError` reaches the outer
handler, which re-raises `Exception("Comprehensive analysis failed: ...")` to
the caller.  Only a completed call whose body fails to parse as JSON reaches
the promised fallback report, with `parsing_error: true` and the sentiment
derived from the quantitative thresholds. -/
theorem C1_service_failure_escapes :
    analyzeComprehensive "T1" exRecordsC1 .failure (fun _ => Option.none) =
      Except.error PyError.comprehensiveFailed ∧
    analyzeComprehensiveBody "T1" exRecordsC1 .failure (fun _ => Option.none) =
      Except.error (PyError.unboundLocal "response_content") :=
  ⟨rfl, rfl⟩

/-- C3 (counterexample): metric "b" appears in the second record's
quantitative mapping, yet the aggregator — which iterates only over the first
record's keys — produces no stats entry for it; and metric "a" gets
`count = 1` although its only supplied value, 0, lies outside [1,5] (the
number of valid values is 0). -/
theorem C3_counterexample :
    "b" ∈ specMetricNames exRecordsC3 ∧
    (quantitativeInsights (quantData exRecordsC3)).lookup "b" = Option.none ∧
    ((quantitativeInsights (quantData exRecordsC3)).lookup "a").map MetricStats.count =
      some 1 ∧
    ((collectValues "a" (quantData exRecordsC3)).filter (fun v => 1 ≤ v ∧ v ≤ 5)).length
      = 0 := by
  have hab : ("a" : String) ≠ "b" := by decide
  have hba : ("b" : String) ≠ "a" := by decide
  have hca : collectValues "a" [[("a", (0:ℚ))], [("b", (3:ℚ))]] = [0] := by
    simp [collectValues, lookup_cons, lookup_nil, hab]
  have hca' : collectValues "a" (quantData exRecordsC3) = [0] := hca
  have hqi : quantitativeInsights (quantData exRecordsC3) = [("a", mkMetricStats [0])] := by
    show quantitativeInsights [[("a", (0:ℚ))], [("b", (3:ℚ))]] = [("a", mkMetricStats [0])]
    simp [quantitativeInsights, firstRecordMetrics, hca]
  refine ⟨?_, ?_, ?_, ?_⟩
  · decide
  · rw [hqi, lookup_cons, if_neg hba, lookup_nil]
  · rw [hqi, lookup_cons, if_pos rfl]
    simp [mkMetricStats]
  · rw [hca']
    norm_num [List.filter]

/-- C3 (amended): the Rating Aggregator produces one `MetricStats` for each
metric name of the FIRST record's quantitative mapping that has at least one
present value across the records, and each `MetricStats.count` equals the
number of present (non-None) values for that metric — with no [1,5] range
check; absent values are excluded, never counted as zero. -/
theorem C3_first_record_metrics_and_counts (records : List FeedbackRecord) (m : String) :
    ((∃ s, (m, s) ∈ quantitativeInsights (quantData records)) ↔
      (m ∈ firstRecordMetrics (quantData records) ∧
        collectValues m (quantData records) ≠ [])) ∧
    (∀ s, (m, s) ∈ quantitativeInsights (quantData records) →
      s.count = (collectValues m (quantData records)).length) := by
  constructor
  · constructor
    · rintro ⟨s, hs⟩
      rw [quantitativeInsights, List.mem_filterMap] at hs
      obtain ⟨k, hk, hf⟩ := hs
      by_cases he : (collectValues k (quantData records)).isEmpty
      · rw [if_pos he] at hf; cases hf
      · rw [if_neg he] at hf
        obtain ⟨rfl, rfl⟩ : k = m ∧ mkMetricStats (collectValues k (quantData records)) = s := by
          simpa using hf
        exact ⟨hk, by simpa [List.isEmpty_iff] using he⟩
    · rintro ⟨hm, hne⟩
      refine ⟨mkMetricStats (collectValues m (quantData records)), ?_⟩
      rw [quantitativeInsights, List.mem_filterMap]
      exact ⟨m, hm, by rw [if_neg (by simpa [List.isEmpty_iff] using hne)]⟩
  · intro s hs
    rw [quantitativeInsights, List.mem_filterMap] at hs
    obtain ⟨k, hk, hf⟩ := hs
    by_cases he : (collectValues k (quantData records)).isEmpty
    · rw [if_pos he] at hf; cases hf
    · rw [if_neg he] at hf
      obtain ⟨rfl, rfl⟩ : k = m ∧ mkMetricStats (collectValues k (quantData records)) = s := by
        simpa using hf
      rfl

/-- Witness for C3 (amended): the count/membership characterisation applied
to the concrete two-record set. -/
theorem C3_first_record_metrics_and_counts_witness :
    (mkMetricStats (collectValues "a" (quantData exRecordsC3))).count =
      (collectValues "a" (quantData exRecordsC3)).length :=
  (C3_first_record_metrics_and_counts exRecordsC3 "a").2 _
    (List.mem_filterMap.mpr ⟨"a", by decide,
      by rw [if_neg (by simp [collectValues, quantData, exRecordsC3, lookup_cons, lookup_nil])]⟩)

theorem calculateKpis_consistency_eq (fs : List FeedbackRecord) (ov : ℚ) :
    (calculateKpis fs ov).consistency_score =
      roundTo 1 (if (sessionRatings fs).length > 1 then
        max 0 (100 - ((((sessionRatings fs).map (·.average_rating)).map
          (fun r => (r - ov) ^ 2)).sum /
            ((((sessionRatings fs).map (·.average_rating)).length : ℕ) : ℚ)) * 20)
      else 100) := rfl

theorem calculateKpis_trend_eq (fs : List FeedbackRecord) (ov : ℚ) :
    (calculateKpis fs ov).improvement_trend =
      (if (sessionRatings fs).length ≥ 5 then
        if ((((sessionRatings fs).drop ((sessionRatings fs).length - 5)).drop 3).map
              (·.average_rating)).sum / 2 -
           ((((sessionRatings fs).drop ((sessionRatings fs).length - 5)).take 2).map
              (·.average_rating)).sum / 2 > 0.2 then "↗️ Improving"
        else if ((((sessionRatings fs).drop ((sessionRatings fs).length - 5)).drop 3).map
              (·.average_rating)).sum / 2 -
           ((((sessionRatings fs).drop ((sessionRatings fs).length - 5)).take 2).map
              (·.average_rating)).sum / 2 < -0.2 then "↘️ Declining"
        else "➡️ Stable"
      else "📊 Insufficient Data") := rfl

theorem calculateKpis_satisfaction_eq (fs : List FeedbackRecord) (ov : ℚ) :
    (calculateKpis fs ov).satisfaction_rate =
      roundTo 1 (if (allRatingsOf fs).isEmpty then 0
        else (((allRatingsOf fs).filter (fun r => r ≥ 4)).length : ℚ) /
          ((allRatingsOf fs).length : ℚ) * 100) := rfl

theorem calculateKpis_excellence_eq (fs : List FeedbackRecord) (ov : ℚ) :
    (calculateKpis fs ov).excellence_rate =
      roundTo 1 (if (allRatingsOf fs).isEmpty then 0
        else (((allRatingsOf fs).filter (fun r => r ≥ 4.5)).length : ℚ) /
          ((allRatingsOf fs).length : ℚ) * 100) := rfl

theorem calculateKpis_poor_eq (fs : List FeedbackRecord) (ov : ℚ) :
    (calculateKpis fs ov).poor_rating_rate =
      roundTo 1 (if (allRatingsOf fs).isEmpty then 0
        else (((allRatingsOf fs).filter (fun r => r < 3)).length : ℚ) /
          ((allRatingsOf fs).length : ℚ) * 100) := rfl

/-- C9: the consistency score always lies in [0,100]; with fewer than two
sessions it is exactly 100, and with at least two sessions it is
`max(0, 100 − 20·variance)` (display-rounded to 1 decimal), where the
variance is the mean of `(session average − overall average)²` over the
session averages and `ov` is the trainer-level overall average supplied by
the caller of `calculate_kpis`. -/
theorem C9_consistency_score_bounds (fs : List FeedbackRecord) (ov : ℚ) :
    0 ≤ (calculateKpis fs ov).consistency_score ∧
    (calculateKpis fs ov).consistency_score ≤ 100 ∧
    ((sessionRatings fs).length < 2 → (calculateKpis fs ov).consistency_score = 100) ∧
    (2 ≤ (sessionRatings fs).length →
      (calculateKpis fs ov).consistency_score =
        roundTo 1 (max 0 (100 - 20 * (((sessionRatings fs).map
          (fun s => (s.average_rating - ov) ^ 2)).sum / ((sessionRatings fs).length : ℚ))))) := by
  rw [calculateKpis_consistency_eq]
  by_cases h : (sessionRatings fs).length > 1
  · rw [if_pos h]
    set V := (((sessionRatings fs).map (·.average_rating)).map (fun r => (r - ov) ^ 2)).sum /
        ((((sessionRatings fs).map (·.average_rating)).length : ℕ) : ℚ) with hVdef
    have hV : 0 ≤ V := by
      rw [hVdef]
      apply div_nonneg
      · apply List.sum_nonneg
        intro x hx
        rw [List.mem_map] at hx
        obtain ⟨r, _, rfl⟩ := hx
        positivity
      · positivity
    have h0 : 0 ≤ max (0:ℚ) (100 - V * 20) := le_max_left _ _
    have h100 : max (0:ℚ) (100 - V * 20) ≤ 100 :=
      max_le (by norm_num) (by nlinarith)
    obtain ⟨hb0, hb100⟩ := roundTo1_bounds h0 h100
    refine ⟨hb0, hb100, fun hlt => absurd h (by omega), fun _ => ?_⟩
    have hVeq : V = ((sessionRatings fs).map
        (fun s => (s.average_rating - ov) ^ 2)).sum / ((sessionRatings fs).length : ℚ) := by
      rw [hVdef, List.map_map, List.length_map]
      rfl
    rw [← hVeq]
    congr 1
    congr 1
    ring
  · rw [if_neg h]
    rw [roundTo_eq_self (1000 : ℤ) (by norm_num)]
    exact ⟨by norm_num, by norm_num, fun _ => rfl, fun h2 => absurd h2 (by omega)⟩

/-- Witness for C9: a single-session record set has consistency score
exactly 100. -/
theorem C9_consistency_score_bounds_witness :
    (calculateKpis exRecordsC9 0).consistency_score = 100 :=
  (C9_consistency_score_bounds exRecordsC9 0).2.2.1 (by
    have hu : (sessionRatingsUnsorted exRecordsC9).length = 1 := by
      simp [sessionRatingsUnsorted, groupByTrainingId, insertGroup, sessionQuantValues,
        exRecordsC9, lookup_nil]
    rw [sessionRatings, (List.perm_insertionSort _ _).length_eq, hu]
    norm_num)

theorem allRatingsOf_exC2 : allRatingsOf exRecordsC2 = [5, 5, 5, 5, 1, 1, 1, 2, 2, 2] := by
  simp [allRatingsOf, quantData, exRecordsC2]

/-- C2 (counterexample): on the ten ratings `[5,5,5,5,1,1,1,2,2,2]` the code
returns `poor_rating_rate = 60.0` (six ratings are < 3) and
`excellence_rate = 40.0` (four integer ratings are ≥ 4.5 — namely the 5s), so
the claimed triple (40.0, 50.0, 0.0) is false. -/
theorem C2_counterexample :
    ¬ ((calculateKpis exRecordsC2 (overallAvgOf exRecordsC2)).satisfaction_rate = 40 ∧
       (calculateKpis exRecordsC2 (overallAvgOf exRecordsC2)).poor_rating_rate = 50 ∧
       (calculateKpis exRecordsC2 (overallAvgOf exRecordsC2)).excellence_rate = 0) := by
  intro h
  have hp := h.2.1
  rw [calculateKpis_poor_eq, allRatingsOf_exC2] at hp
  norm_num [List.filter] at hp
  rw [roundTo_eq_self (600 : ℤ) (by norm_num)] at hp
  norm_num at hp

/-- C2 (amended): on the ten ratings `[5,5,5,5,1,1,1,2,2,2]` `calculate_kpis`
returns `satisfaction_rate = 40.0`, `poor_rating_rate = 60.0` and
`excellence_rate = 40.0`, the percentages of individual ratings that are ≥4
(four), <3 (six) and ≥4.5 (four — every integer rating ≥4.5 is a 5)
respectively. -/
theorem C2_kpi_rates_scenario :
    (calculateKpis exRecordsC2 (overallAvgOf exRecordsC2)).satisfaction_rate = 40 ∧
    (calculateKpis exRecordsC2 (overallAvgOf exRecordsC2)).poor_rating_rate = 60 ∧
    (calculateKpis exRecordsC2 (overallAvgOf exRecordsC2)).excellence_rate = 40 ∧
    allRatingsOf exRecordsC2 = [5, 5, 5, 5, 1, 1, 1, 2, 2, 2] ∧
    ((allRatingsOf exRecordsC2).filter (fun r => r ≥ 4)).length = 4 ∧
    ((allRatingsOf exRecordsC2).filter (fun r => r < 3)).length = 6 ∧
    ((allRatingsOf exRecordsC2).filter (fun r => r ≥ 4.5)).length = 4 := by
  refine ⟨?_, ?_, ?_, allRatingsOf_exC2, ?_, ?_, ?_⟩
  · rw [calculateKpis_satisfaction_eq, allRatingsOf_exC2]
    norm_num [List.filter]
    rw [roundTo_eq_self (400 : ℤ) (by norm_num)]
  · rw [calculateKpis_poor_eq, allRatingsOf_exC2]
    norm_num [List.filter]
    rw [roundTo_eq_self (600 : ℤ) (by norm_num)]
  · rw [calculateKpis_excellence_eq, allRatingsOf_exC2]
    norm_num [List.filter]
    rw [roundTo_eq_self (400 : ℤ) (by norm_num)]
  · rw [allRatingsOf_exC2]; norm_num [List.filter]
  · rw [allRatingsOf_exC2]; norm_num [List.filter]
  · rw [allRatingsOf_exC2]; norm_num [List.filter]

/-- C5: the session list of `calculate_kpis` is sorted ascending by the
`session_id` string (lexicographically by code point), and every session's
`average_rating` is the flat mean — the sum of all individual quantitative
values of that session's records divided by their count, not a mean of
per-metric means. -/
theorem C5_session_flat_mean_and_order (fs : List FeedbackRecord) :
    List.Sorted sessionIdLe (sessionRatings fs) ∧
    ∀ s ∈ sessionRatings fs, ∃ g, (s.session_id, g) ∈ groupByTrainingId fs ∧
      (sessionQuantValues g).length ≠ 0 ∧
      s.average_rating = (sessionQuantValues g).sum / ((sessionQuantValues g).length : ℚ) := by
  constructor
  · haveI : IsTotal SessionRating sessionIdLe :=
      ⟨fun a b => charListLe_total a.session_id.data b.session_id.data⟩
    haveI : IsTrans SessionRating sessionIdLe :=
      ⟨fun a b c => charListLe_trans a.session_id.data b.session_id.data c.session_id.data⟩
    exact List.sorted_insertionSort sessionIdLe _
  · intro s hs
    have hs' : s ∈ sessionRatingsUnsorted fs :=
      (List.perm_insertionSort sessionIdLe (sessionRatingsUnsorted fs)).mem_iff.mp hs
    rw [sessionRatingsUnsorted, List.mem_filterMap] at hs'
    obtain ⟨p, hp, hf⟩ := hs'
    by_cases hz : (sessionQuantValues p.2).length = 0
    · rw [if_pos hz] at hf; cases hf
    · rw [if_neg hz] at hf
      obtain rfl := Option.some.inj hf
      exact ⟨p.2, hp, hz, rfl⟩

/-- Witness for C5: session "b" of the two-session example carries as its
average the flat mean of its values. -/
theorem C5_session_flat_mean_and_order_witness :
    ∃ g, (("b" : String), g) ∈ groupByTrainingId exRecordsC5 ∧
      (sessionQuantValues g).length ≠ 0 ∧
      (SessionRating.mk "b" 4).average_rating =
        (sessionQuantValues g).sum / ((sessionQuantValues g).length : ℚ) :=
  (C5_session_flat_mean_and_order exRecordsC5).2 ⟨"b", 4⟩ (by
    have hu : sessionRatingsUnsorted exRecordsC5 =
        [⟨"b", 4⟩, ⟨"a", 2⟩] := by
      norm_num [sessionRatingsUnsorted, groupByTrainingId, insertGroup, sessionQuantValues,
        exRecordsC5, lookup_cons, lookup_nil, List.filterMap_cons, List.filterMap_nil,
        List.flatMap, Function.comp, show ("a" : String) ≠ "b" from by decide]
    exact (List.perm_insertionSort sessionIdLe (sessionRatingsUnsorted exRecordsC5)).mem_iff.mpr
      (by rw [hu]; exact List.mem_cons_self _ _))

/-- C8: with at least 5 sessions the trend label compares the mean of the
first two against the mean of the last two of the most recent five sessions
in sort order — `Improving` when the delta exceeds 0.2, `Declining` when it
is below −0.2, `Stable` otherwise; with fewer than 5 sessions the label is
the insufficient-data one. -/
theorem C8_improvement_trend_labels (fs : List FeedbackRecord) (ov : ℚ) :
    (5 ≤ (sessionRatings fs).length →
      (calculateKpis fs ov).improvement_trend =
        (if ((((sessionRatings fs).drop ((sessionRatings fs).length - 5)).drop 3).map
              (·.average_rating)).sum / 2 -
            ((((sessionRatings fs).drop ((sessionRatings fs).length - 5)).take 2).map
              (·.average_rating)).sum / 2 > 0.2 then "↗️ Improving"
         else if ((((sessionRatings fs).drop ((sessionRatings fs).length - 5)).drop 3).map
              (·.average_rating)).sum / 2 -
            ((((sessionRatings fs).drop ((sessionRatings fs).length - 5)).take 2).map
              (·.average_rating)).sum / 2 < -0.2 then "↘️ Declining"
         else "➡️ Stable")) ∧
    ((sessionRatings fs).length < 5 →
      (calculateKpis fs ov).improvement_trend = "📊 Insufficient Data") := by
  rw [calculateKpis_trend_eq]
  constructor
  · intro h5
    rw [if_pos h5]
  · intro hlt
    rw [if_neg (by omega)]

/-- Witness for C8: five sessions with identical averages 3 get the stable
label (the spec's stable-scenario). -/
theorem C8_improvement_trend_labels_witness :
    (calculateKpis exRecordsC8 3).improvement_trend = "➡️ Stable" := by
  have h1 : sessionIdLe ⟨"d", (3:ℚ)⟩ ⟨"e", (3:ℚ)⟩ := by decide
  have h2 : sessionIdLe ⟨"c", (3:ℚ)⟩ ⟨"d", (3:ℚ)⟩ := by decide
  have h3 : sessionIdLe ⟨"b", (3:ℚ)⟩ ⟨"c", (3:ℚ)⟩ := by decide
  have h4 : sessionIdLe ⟨"a", (3:ℚ)⟩ ⟨"b", (3:ℚ)⟩ := by decide
  have hu : sessionRatingsUnsorted exRecordsC8 =
      [⟨"a", 3⟩, ⟨"b", 3⟩, ⟨"c", 3⟩, ⟨"d", 3⟩, ⟨"e", 3⟩] := by
    norm_num [sessionRatingsUnsorted, groupByTrainingId, insertGroup, sessionQuantValues,
      exRecordsC8, lookup_cons, lookup_nil, List.filterMap_cons, List.filterMap_nil,
      List.flatMap, Function.comp,
      show ("b" : String) ≠ "a" from by decide, show ("c" : String) ≠ "a" from by decide,
      show ("c" : String) ≠ "b" from by decide, show ("d" : String) ≠ "a" from by decide,
      show ("d" : String) ≠ "b" from by decide, show ("d" : String) ≠ "c" from by decide,
      show ("e" : String) ≠ "a" from by decide, show ("e" : String) ≠ "b" from by decide,
      show ("e" : String) ≠ "c" from by decide, show ("e" : String) ≠ "d" from by decide]
  have hsorted : sessionRatings exRecordsC8 =
      [⟨"a", 3⟩, ⟨"b", 3⟩, ⟨"c", 3⟩, ⟨"d", 3⟩, ⟨"e", 3⟩] := by
    rw [sessionRatings, hu]
    simp [List.insertionSort, List.orderedInsert, h1, h2, h3, h4]
  have heq := (C8_improvement_trend_labels exRecordsC8 3).1 (by rw [hsorted]; norm_num)
  rw [heq, hsorted]
  norm_num [List.drop, List.take]

end FeedbackAnalytics
